import Mathlib

/-!
Shallow embedding of the sale/debt-ledger subsystem of the
`enrico-cerinni-backend` repository (FastAPI + SQLAlchemy), covering
`SaleService.create_sale`, `SaleService.pay_debt`, `SaleService.cancel_sale`
(`app/services/sale_service.py`), and the API handlers
`process_debt_payment` and `get_client_debt_history` (`app/api/sales.py`),
together with the data model rows they touch
(`app/models/{sale,client,product_variant,transaction}.py`).

Modelling conventions:
* `Decimal` money amounts are embedded as `Int` (the operations only add,
  subtract, negate and compare them); `quantity` is Python `int`, also `Int`
  (the Pydantic schemas in `app/schemas/sale.py` place no bound on it).
* The SQLAlchemy session is embedded as explicit state passing on `DBState`.
  Each operation returns `(result, committedState)`: the state reached at the
  last successful `db.commit()`.  In-session mutations that are never
  committed (because an exception escapes first) are rolled back, i.e. they do
  not appear in the committed state.
* `create_sale` performs `self.db.commit()` twice (lines 80 and 124 of
  `sale_service.py`).  To observe persistence failures after validation, the
  embedding takes a `commitOk` flag for the final commit: `commitOk = false`
  models that commit raising, after which the session is rolled back to the
  last committed snapshot.
* SQLAlchemy's declarative constructor raises `TypeError` on a keyword
  argument that is not a mapped column.  Every `Transaction(...)` call site
  passes its literal keyword list, checked against the columns declared in
  `app/models/transaction.py`.
* Python truthiness of `if sale_data.client_id:` (`Optional[int]`) is modelled
  by `optTruthy`: `None` and `0` are falsy.
-/

namespace EnricoCerinni

/-- `PaymentMethod` enum from `app/models/sale.py`. -/
inductive PaymentMethod
  | cash
  | card
  | transfer
deriving DecidableEq, Repr

/-- `SaleStatus` enum from `app/models/sale.py`. -/
inductive SaleStatus
  | completed
  | partially_paid
  | debt
  | cancelled
  | pending
deriving DecidableEq, Repr

/-- `TransactionType` enum from `app/models/transaction.py`. -/
inductive TransactionType
  | sale
  | purchase
  | expense
  | refund
  | debt_payment
deriving DecidableEq, Repr

/-- `Client` row (`app/models/client.py`): the fields the ledger touches. -/
structure Client where
  id : Nat
  debt_amount : Int
deriving DecidableEq, Repr

/-- `ProductVariant` row (`app/models/product_variant.py`): the fields the
ledger touches. -/
structure ProductVariant where
  id : Nat
  sku : String
  stock_quantity : Int
deriving DecidableEq, Repr

/-- `Sale` row (`app/models/sale.py`). -/
structure SaleRow where
  id : Nat
  receipt_number : String
  client_id : Option Nat
  total_amount : Int
  paid_amount : Int
  payment_method : PaymentMethod
  status : SaleStatus
  notes : Option String
  user_id : Nat
deriving DecidableEq, Repr

/-- `SaleItem` row (`app/models/sale.py`). -/
structure SaleItemRow where
  sale_id : Nat
  product_variant_id : Nat
  quantity : Int
  unit_price : Int
  total_price : Int
deriving DecidableEq, Repr

/-- `Transaction` row (`app/models/transaction.py`).  `user_id` is kept as
`Option Nat` because `cancel_sale` constructs a `Transaction` without one. -/
structure TransactionRow where
  id : Nat
  transaction_type : TransactionType
  amount : Int
  description : String
  sale_id : Option Nat
  client_id : Option Nat
  user_id : Option Nat
  created_at : Nat
deriving DecidableEq, Repr

/-- The relational store plus a logical clock supplying `created_at`
timestamps (`server_default=func.now()`). -/
structure DBState where
  clients : List Client
  variants : List ProductVariant
  sales : List SaleRow
  saleItems : List SaleItemRow
  transactions : List TransactionRow
  clock : Nat
deriving DecidableEq, Repr

/-- `SaleItemCreate` schema (`app/schemas/sale.py`, lines 8-15): no bound is
placed on `quantity` or `unit_price`. -/
structure SaleItemCreate where
  product_variant_id : Nat
  quantity : Int
  unit_price : Int
deriving DecidableEq, Repr

/-- `SaleCreate` schema (`app/schemas/sale.py`, lines 31-41): no bound is
placed on `paid_amount`.  `total_amount` is caller-supplied and ignored by
`SaleService.create_sale`, which recomputes the total from the items. -/
structure SaleCreate where
  client_id : Option Nat
  total_amount : Int
  paid_amount : Int
  payment_method : PaymentMethod
  notes : Option String
  items : List SaleItemCreate
deriving DecidableEq, Repr

/-- The failure outcomes of the embedded operations.  The first block are the
`HTTPException`s raised by the source; `unboundLocalClient` models the Python
`UnboundLocalError` at `client.debt_amount += ...` when `client` was never
bound; `constructorTypeError` models SQLAlchemy's `TypeError` for an invalid
keyword argument; `persistenceError` models a failing `db.commit()`. -/
inductive SaleError
  | clientNotFound
  | variantNotFound (variantId : Nat)
  | insufficientStock (sku : String)
  | invalidPayment
  | saleNotFound
  | cannotPayCancelled
  | alreadyFullyPaid
  | exceedsDebt (remaining : Int)
  | alreadyCancelled
  | exceedsClientDebt
  | unboundLocalClient
  | constructorTypeError (invalidKwargs : List String)
  | persistenceError
deriving DecidableEq, Repr

/-- Python truthiness of an `Optional[int]`: `None` and `0` are falsy. -/
def optTruthy : Option Nat → Bool
  | none => false
  | some n => n != 0

/-- `self.db.query(Client).filter(Client.id == cid).first()`. -/
def findClient (st : DBState) (cid : Nat) : Option Client :=
  st.clients.find? (fun c => c.id == cid)

/-- `self.db.query(ProductVariant).filter(ProductVariant.id == vid).first()`. -/
def findVariant (st : DBState) (vid : Nat) : Option ProductVariant :=
  st.variants.find? (fun v => v.id == vid)

/-- `SaleService.get_sale`: `self.db.query(Sale).filter(Sale.id == sale_id).first()`. -/
def get_sale (st : DBState) (saleId : Nat) : Option SaleRow :=
  st.sales.find? (fun s => s.id == saleId)

/-- Mutating `client.debt_amount += delta` on the row with id `cid`. -/
def updateClientDebt (st : DBState) (cid : Nat) (delta : Int) : DBState :=
  { st with
    clients := st.clients.map fun c =>
      if c.id == cid then { c with debt_amount := c.debt_amount + delta } else c }

/-- Mutating `product_variant.stock_quantity += delta` on the row with id `vid`. -/
def updateVariantStock (st : DBState) (vid : Nat) (delta : Int) : DBState :=
  { st with
    variants := st.variants.map fun v =>
      if v.id == vid then { v with stock_quantity := v.stock_quantity + delta } else v }

/-- Mutating a fetched `Sale` ORM row: the row with the same id becomes `s`. -/
def updateSaleRow (st : DBState) (s : SaleRow) : DBState :=
  { st with sales := st.sales.map fun x => if x.id == s.id then s else x }

/-- `sale.items`: the `SaleItem` relationship of `Sale`. -/
def itemsOfSale (st : DBState) (saleId : Nat) : List SaleItemRow :=
  st.saleItems.filter (fun i => i.sale_id == saleId)

/-- The mapped columns of the `Transaction` model
(`app/models/transaction.py`, lines 25-44). -/
def transactionColumns : List String :=
  ["id", "user_id", "amount", "description", "transaction_type", "sale_id",
   "client_id", "created_at", "sale", "client"]

/-- The keyword arguments of a `Transaction(...)` call that are not mapped
columns; SQLAlchemy's declarative constructor raises `TypeError` on the first
of them. -/
def txInvalidKwargs (kwargs : List String) : List String :=
  kwargs.filter (fun k => !(transactionColumns.contains k))

/-- Appending a freshly constructed `Transaction` row via `self.db.add` and
letting the database assign `id` and `created_at`. -/
def appendTransaction (st : DBState) (ty : TransactionType) (amount : Int)
    (descr : String) (saleId clientId userId : Option Nat) : DBState :=
  { st with
    transactions := st.transactions ++
      [{ id := st.transactions.length + 1, transaction_type := ty,
         amount := amount, description := descr, sale_id := saleId,
         client_id := clientId, user_id := userId, created_at := st.clock }],
    clock := st.clock + 1 }

/-- `Transaction(**kwargs)` followed by `self.db.add`: fails with `TypeError`
when a keyword is not a mapped column. -/
def addTransaction (st : DBState) (kwargs : List String) (ty : TransactionType)
    (amount : Int) (descr : String) (saleId clientId userId : Option Nat) :
    Except SaleError DBState :=
  match txInvalidKwargs kwargs with
  | [] => .ok (appendTransaction st ty amount descr saleId clientId userId)
  | bad => .error (.constructorTypeError bad)

/-- Keywords of the `Transaction(...)` call in `create_sale`
(`sale_service.py`, lines 114-121). -/
def createSaleTxKwargs : List String :=
  ["transaction_type", "amount", "description", "sale_id", "client_id", "user_id"]

/-- Keywords of the `Transaction(...)` call in `pay_debt`
(`sale_service.py`, lines 293-300). -/
def payDebtTxKwargs : List String :=
  ["transaction_type", "amount", "description", "sale_id", "client_id", "user_id"]

/-- Keywords of the `Transaction(...)` call in `cancel_sale`
(`sale_service.py`, lines 194-201): `type` and `reference_number` are not
mapped columns of the `Transaction` model. -/
def cancelTxKwargs : List String :=
  ["type", "amount", "description", "sale_id", "client_id", "reference_number"]

/-- Keywords of the `Transaction(...)` call in `process_debt_payment`
(`api/sales.py`, lines 259-266). -/
def processDebtTxKwargs : List String :=
  ["client_id", "user_id", "amount", "transaction_type", "description", "created_at"]

/-- Status derivation in `create_sale` (`sale_service.py`, lines 70-75). -/
def saleStatusOf (paid total : Int) : SaleStatus :=
  if paid = 0 then .debt
  else if paid = total then .completed
  else .partially_paid

/-- The validation loop of `create_sale` (`sale_service.py`, lines 38-62):
for each item, the variant must exist and `stock_quantity >= quantity`
(each check reads the still-undecremented stock); accumulates
`total_amount` and the `sale_items` work list. -/
def validateItems (st : DBState) :
    List SaleItemCreate →
    Except SaleError (Int × List (ProductVariant × SaleItemCreate × Int))
  | [] => .ok (0, [])
  | item :: rest =>
    match findVariant st item.product_variant_id with
    | none => .error (.variantNotFound item.product_variant_id)
    | some product_variant =>
      if product_variant.stock_quantity < item.quantity then
        .error (.insufficientStock product_variant.sku)
      else
        match validateItems st rest with
        | .error e => .error e
        | .ok (total, infos) =>
          .ok (item.unit_price * item.quantity + total,
               (product_variant, item, item.unit_price * item.quantity) :: infos)

/-- The item-persisting loop of `create_sale` (`sale_service.py`, lines
99-110): adds one `SaleItem` row per work-list entry and decrements the
variant's `stock_quantity` by the item quantity, sequentially. -/
def applyItems (st : DBState) (saleId : Nat) :
    List (ProductVariant × SaleItemCreate × Int) → DBState
  | [] => st
  | (product_variant, item, itemTotal) :: rest =>
    let st1 :=
      { st with
        saleItems := st.saleItems ++
          [{ sale_id := saleId, product_variant_id := product_variant.id,
             quantity := item.quantity, unit_price := item.unit_price,
             total_price := itemTotal }] }
    applyItems (updateVariantStock st1 product_variant.id (-item.quantity)) saleId rest

/-- `SaleService.create_sale` (`sale_service.py`, lines 24-126).
Control flow, in source order:
1. `if sale_data.client_id:` (truthy) — the client must exist, else 400.
2. Validation loop over the items (existence, stock) computing `total_amount`.
3. `paid_amount > total_amount` — else 400.
4. Status derivation (lines 70-75).
5. `if paid_amount < total_amount:` increment `client.debt_amount` and
   `self.db.commit()` (lines 78-80) — `client` is unbound when `client_id`
   was falsy, raising `UnboundLocalError`; the debt commit is durable on its
   own.
6. Persist the `Sale` row, the `SaleItem` rows and the stock decrements, add
   the sale-type `Transaction` when `paid_amount > 0`, and `self.db.commit()`
   (line 124): `commitOk = false` models this final commit failing, rolling
   the session back to the last committed snapshot. -/
def create_sale (st : DBState) (d : SaleCreate) (userId : Nat)
    (receipt : String) (commitOk : Bool) : Except SaleError SaleRow × DBState :=
  if optTruthy d.client_id ∧ findClient st (d.client_id.getD 0) = none then
    (.error .clientNotFound, st)
  else
    match validateItems st d.items with
    | .error e => (.error e, st)
    | .ok (total_amount, sale_items) =>
      if d.paid_amount > total_amount then (.error .invalidPayment, st)
      else
        let sale_status := saleStatusOf d.paid_amount total_amount
        if d.paid_amount < total_amount ∧ ¬ optTruthy d.client_id then
          (.error .unboundLocalClient, st)
        else
          let st1 :=
            if d.paid_amount < total_amount then
              updateClientDebt st (d.client_id.getD 0) (total_amount - d.paid_amount)
            else st
          let saleId := st1.sales.length + 1
          let db_sale : SaleRow :=
            { id := saleId, receipt_number := receipt, client_id := d.client_id,
              total_amount := total_amount, paid_amount := d.paid_amount,
              payment_method := d.payment_method, status := sale_status,
              notes := d.notes, user_id := userId }
          let st2 := { st1 with sales := st1.sales ++ [db_sale] }
          let st3 := applyItems st2 saleId sale_items
          match (if d.paid_amount > 0 then
                   addTransaction st3 createSaleTxKwargs .sale d.paid_amount
                     ("Sale " ++ receipt ++ " - Paid amount") (some saleId)
                     d.client_id (some userId)
                 else .ok st3) with
          | .error e => (.error e, st1)
          | .ok st4 =>
            if commitOk then (.ok db_sale, st4) else (.error .persistenceError, st1)

/-- The updated sale produced by a successful `pay_debt`
(`sale_service.py`, lines 283-290). -/
def paidSale (sale : SaleRow) (payment_amount : Int) : SaleRow :=
  { sale with
    paid_amount := sale.paid_amount + payment_amount,
    status :=
      if sale.paid_amount + payment_amount = sale.total_amount then .completed
      else .partially_paid }

/-- `SaleService.pay_debt` (`sale_service.py`, lines 255-305). -/
def pay_debt (st : DBState) (saleId : Nat) (payment_amount : Int)
    (userId : Nat) : Except SaleError SaleRow × DBState :=
  match get_sale st saleId with
  | none => (.error .saleNotFound, st)
  | some sale =>
    if sale.status = .cancelled then (.error .cannotPayCancelled, st)
    else if sale.status = .completed then (.error .alreadyFullyPaid, st)
    else
      let remaining_debt := sale.total_amount - sale.paid_amount
      if payment_amount > remaining_debt then
        (.error (.exceedsDebt remaining_debt), st)
      else
        let sale' := paidSale sale payment_amount
        let st1 := updateSaleRow st sale'
        match addTransaction st1 payDebtTxKwargs .debt_payment payment_amount
            ("Debt payment for sale " ++ sale.receipt_number) (some sale.id)
            sale.client_id (some userId) with
        | .error e => (.error e, st)
        | .ok st2 => (.ok sale', st2)

/-- The stock-restoring loop of `cancel_sale` (`sale_service.py`, lines
183-188): for each item, if the variant exists, `stock_quantity += quantity`. -/
def restoreStock (st : DBState) : List SaleItemRow → DBState
  | [] => st
  | item :: rest =>
    match findVariant st item.product_variant_id with
    | some product_variant =>
      restoreStock (updateVariantStock st product_variant.id item.quantity) rest
    | none => restoreStock st rest

/-- `SaleService.cancel_sale` (`sale_service.py`, lines 170-206).  The
`Transaction(...)` call at lines 194-201 passes `type=` and
`reference_number=`, which are not mapped columns, so its construction raises
`TypeError` before `self.db.commit()` is reached: the in-session stock and
status mutations are rolled back. -/
def cancel_sale (st : DBState) (saleId : Nat) :
    Except SaleError (Option SaleRow) × DBState :=
  match get_sale st saleId with
  | none => (.ok none, st)
  | some sale =>
    if sale.status = .cancelled then (.error .alreadyCancelled, st)
    else
      let st1 := restoreStock st (itemsOfSale st saleId)
      let st2 := updateSaleRow st1 { sale with status := .cancelled }
      match addTransaction st2 cancelTxKwargs .refund (-sale.total_amount)
          ("Refund for cancelled sale " ++ sale.receipt_number) (some sale.id)
          sale.client_id none with
      | .error _ => (.error (.constructorTypeError (txInvalidKwargs cancelTxKwargs)), st)
      | .ok st3 => (.ok (some { sale with status := .cancelled }), st3)

/-- API handler `process_debt_payment` (`api/sales.py`, lines 238-268): the
client-level debt payment.  Decrements `Client.debt_amount` directly and
commits, then appends a `debt_payment` transaction that carries no
`sale_id`.  Returns the new debt amount. -/
def process_debt_payment (st : DBState) (clientId : Nat)
    (payment_amount : Int) (userId : Nat) : Except SaleError Int × DBState :=
  match findClient st clientId with
  | none => (.error .clientNotFound, st)
  | some client =>
    if client.debt_amount < payment_amount then (.error .exceedsClientDebt, st)
    else
      let st1 := updateClientDebt st clientId (-payment_amount)
      match addTransaction st1 processDebtTxKwargs .debt_payment payment_amount
          ("Debt payment of " ++ toString payment_amount) none (some clientId)
          (some userId) with
      | .error e => (.error e, st1)
      | .ok st2 => (.ok (client.debt_amount - payment_amount), st2)

/-- One emitted entry of the debt-history view
(`api/sales.py`, lines 309-317). -/
structure DebtHistoryEntry where
  id : Nat
  type : TransactionType
  amount : Int
  balance : Int
  created_at : Nat
deriving DecidableEq, Repr

/-- The `order_by(Transaction.created_at.desc())` ordering of
`get_client_debt_history` (`api/sales.py`, line 296). -/
def createdDesc (a b : TransactionRow) : Prop :=
  b.created_at ≤ a.created_at

instance : DecidableRel createdDesc :=
  fun a b => Nat.decLe b.created_at a.created_at

instance : IsTotal TransactionRow createdDesc :=
  ⟨fun a b => (Nat.le_total b.created_at a.created_at)⟩

instance : IsTrans TransactionRow createdDesc :=
  ⟨fun _ _ _ hab hbc => le_trans hbc hab⟩

/-- The transactions of a client in the order the query returns them:
filtered by `client_id`, ordered by `created_at` descending. -/
def clientTransactionsDesc (st : DBState) (clientId : Nat) : List TransactionRow :=
  List.insertionSort createdDesc
    (st.transactions.filter (fun t => t.client_id == some clientId))

/-- The running-balance loop of `get_client_debt_history`
(`api/sales.py`, lines 300-317), applied to the transactions in query
order: `balance += amount` on `sale`, `balance -= amount` on
`debt_payment`, unchanged otherwise; every transaction is emitted. -/
def replayBalances (balance : Int) : List TransactionRow → List DebtHistoryEntry
  | [] => []
  | t :: ts =>
    let balance' :=
      if t.transaction_type = .sale then balance + t.amount
      else if t.transaction_type = .debt_payment then balance - t.amount
      else balance
    { id := t.id, type := t.transaction_type, amount := t.amount,
      balance := balance', created_at := t.created_at } :: replayBalances balance' ts

/-- API handler `get_client_debt_history` (`api/sales.py`, lines 281-323). -/
def get_client_debt_history (st : DBState) (clientId : Nat) :
    Except SaleError (List DebtHistoryEntry) :=
  match findClient st clientId with
  | none => .error .clientNotFound
  | some _ => .ok (replayBalances 0 (clientTransactionsDesc st clientId))

/-- The signed contribution of one transaction to the running balance. -/
def signedAmount (t : TransactionRow) : Int :=
  if t.transaction_type = .sale then t.amount
  else if t.transaction_type = .debt_payment then -t.amount
  else 0

/-- The identifying fields an emitted debt-history entry carries. -/
def entryKey (e : DebtHistoryEntry) : Nat × TransactionType × Int × Nat :=
  (e.id, e.type, e.amount, e.created_at)

/-- The identifying fields of a transaction row. -/
def txKey (t : TransactionRow) : Nat × TransactionType × Int × Nat :=
  (t.id, t.transaction_type, t.amount, t.created_at)

/-- An operation against the ledger, for stating invariants over sequences
of calls. -/
inductive Op
  | create (d : SaleCreate) (userId : Nat) (receipt : String) (commitOk : Bool)
  | pay (saleId : Nat) (payment_amount : Int) (userId : Nat)
  | cancel (saleId : Nat)

/-- The committed state after one operation. -/
def applyOp (st : DBState) : Op → DBState
  | .create d userId receipt commitOk => (create_sale st d userId receipt commitOk).2
  | .pay saleId amt userId => (pay_debt st saleId amt userId).2
  | .cancel saleId => (cancel_sale st saleId).2

/-- The committed state after a sequence of operations. -/
def applyOps (st : DBState) (ops : List Op) : DBState :=
  ops.foldl applyOp st

/-- The status/payment relation a non-cancelled sale row satisfies in this
code base: `completed` forces `paid_amount = total_amount`, and the converse
holds whenever `total_amount ≠ 0`. -/
def saleOk (s : SaleRow) : Prop :=
  s.status ≠ .cancelled →
    (s.status = .completed → s.paid_amount = s.total_amount) ∧
    (s.total_amount ≠ 0 → s.paid_amount = s.total_amount → s.status = .completed)

/-- Every sale row of the state satisfies `saleOk`. -/
def statusInv (st : DBState) : Prop :=
  ∀ s ∈ st.sales, saleOk s

/-- Every sale row of the state has `paid_amount ≤ total_amount`. -/
def paidLeInv (st : DBState) : Prop :=
  ∀ s ∈ st.sales, s.paid_amount ≤ s.total_amount

/-! ### Concrete states and requests used by the claim theorems -/

/-- A store with one client (no debt) and one variant with stock 5. -/
def stAtomic : DBState := ⟨[⟨1, 0⟩], [⟨1, "SKU1", 5⟩], [], [], [], 0⟩

/-- A fully-on-credit sale request for that client: one item, qty 1 @ 100. -/
def reqAtomic : SaleCreate := ⟨some 1, 100, 0, .cash, none, [⟨1, 1, 100⟩]⟩

/-- The same request with qty 9, exceeding the stock of 5. -/
def reqAtomicOver : SaleCreate := ⟨some 1, 900, 0, .cash, none, [⟨1, 9, 100⟩]⟩

/-- A store with a single variant with stock 1. -/
def stDup : DBState := ⟨[], [⟨1, "SKU1", 1⟩], [], [], [], 0⟩

/-- A fully-paid walk-in request naming the same variant twice, qty 1 each. -/
def reqDup : SaleCreate := ⟨none, 200, 200, .cash, none, [⟨1, 1, 100⟩, ⟨1, 1, 100⟩]⟩

/-- A client with a sale transaction at time 1 and a debt payment at time 2. -/
def stHistory : DBState :=
  ⟨[⟨1, 70⟩], [], [], [],
   [⟨1, .sale, 100, "", some 1, some 1, some 1, 1⟩,
    ⟨2, .debt_payment, 30, "", none, some 1, some 1, 2⟩], 3⟩

/-- The history the code emits for `stHistory`: newest first. -/
def histDescending : List DebtHistoryEntry :=
  [⟨2, .debt_payment, 30, -30, 2⟩, ⟨1, .sale, 100, 70, 1⟩]

/-- Another client with a sale at time 10 and a debt payment at time 20. -/
def stHistoryW : DBState :=
  ⟨[⟨5, 160⟩], [], [], [],
   [⟨1, .sale, 200, "", some 1, some 5, some 1, 10⟩,
    ⟨2, .debt_payment, 40, "", none, some 5, some 1, 20⟩], 30⟩

/-- The history the code emits for `stHistoryW`. -/
def histDescendingW : List DebtHistoryEntry :=
  [⟨2, .debt_payment, 40, -40, 20⟩, ⟨1, .sale, 200, 160, 10⟩]

/-- A completed sale of one item qty 4, with its variant at stock 10. -/
def stCancel : DBState :=
  ⟨[⟨1, 0⟩], [⟨1, "SKU1", 10⟩],
   [⟨1, "RCP-C", some 1, 400, 400, .cash, .completed, none, 1⟩],
   [⟨1, 1, 4, 100, 400⟩], [], 0⟩

/-- A store with one variant in stock. -/
def stZeroTotal : DBState := ⟨[], [⟨1, "SKU5", 1⟩], [], [], [], 0⟩

/-- A walk-in request with one free item: `total_amount = paid_amount = 0`. -/
def reqZeroTotal : SaleCreate := ⟨none, 0, 0, .cash, none, [⟨1, 1, 0⟩]⟩

/-- The sale row `create_sale` persists for `reqZeroTotal`. -/
def rowZeroTotal : SaleRow := ⟨1, "RCP-D", none, 0, 0, .cash, .debt, none, 1⟩

/-- A second store with one variant in stock. -/
def stZeroTotalB : DBState := ⟨[], [⟨2, "SKU6", 3⟩], [], [], [], 0⟩

/-- A walk-in request with two free items: total and paid are both 0. -/
def reqZeroTotalB : SaleCreate := ⟨none, 0, 0, .card, none, [⟨2, 2, 0⟩]⟩

/-- The sale row `create_sale` persists for `reqZeroTotalB`. -/
def rowZeroTotalB : SaleRow := ⟨1, "RCP-F", none, 0, 0, .card, .debt, none, 1⟩

/-- The spec scenario store: a client and two variants. -/
def stScenario : DBState := ⟨[⟨1, 0⟩], [⟨1, "A", 5⟩, ⟨2, "B", 5⟩], [], [], [], 0⟩

/-- The spec scenario request: qty 3 @ 1000 and qty 1 @ 500, paid 2000. -/
def reqScenario : SaleCreate :=
  ⟨some 1, 3500, 2000, .cash, none, [⟨1, 3, 1000⟩, ⟨2, 1, 500⟩]⟩

/-- The sale row `create_sale` persists for `reqScenario`. -/
def rowScenario : SaleRow := ⟨1, "RCP-E", some 1, 3500, 2000, .cash, .partially_paid, none, 7⟩

/-- A partially paid sale: total 3500, paid 2000. -/
def rowPayBefore : SaleRow := ⟨1, "RCP-W7", some 1, 3500, 2000, .cash, .partially_paid, none, 1⟩

/-- A store holding `rowPayBefore`. -/
def stPay : DBState := ⟨[⟨1, 1000⟩], [], [rowPayBefore], [], [], 0⟩

/-- The committed state after `pay_debt stPay 1 1500 7`. -/
def stPayFin : DBState :=
  appendTransaction (updateSaleRow stPay (paidSale rowPayBefore 1500)) .debt_payment 1500
    ("Debt payment for sale " ++ rowPayBefore.receipt_number) (some rowPayBefore.id)
    rowPayBefore.client_id (some 7)

/-- A partially paid sale: total 100, paid 50. -/
def rowNegPay : SaleRow := ⟨1, "RCP-G", some 1, 100, 50, .cash, .partially_paid, none, 1⟩

/-- A store holding `rowNegPay`. -/
def stNegPay : DBState := ⟨[], [], [rowNegPay], [], [], 0⟩

/-- A store with one client and one variant, used as an initial state for
operation sequences. -/
def stOpsW : DBState := ⟨[⟨1, 0⟩], [⟨1, "S", 5⟩], [], [], [], 0⟩

/-- Create a half-paid sale, then pay it off. -/
def opsStatusW : List Op :=
  [.create ⟨some 1, 1000, 500, .cash, none, [⟨1, 1, 1000⟩]⟩ 1 "R1" true, .pay 1 500 1]

/-- Create a half-paid sale, pay part of it, then attempt a cancellation. -/
def opsPaidLeW : List Op :=
  [.create ⟨some 1, 1000, 500, .cash, none, [⟨1, 1, 1000⟩]⟩ 1 "R1" true,
   .pay 1 200 1, .cancel 1]

/-- A client with aggregate debt 80. -/
def stDebtPay : DBState := ⟨[⟨3, 80⟩], [], [], [], [], 5⟩

/-- A store with one variant and no clients. -/
def stWalkIn : DBState := ⟨[], [⟨1, "SKU1", 5⟩], [], [], [], 0⟩

/-- A walk-in request paying 50 of a 100 total. -/
def reqWalkIn : SaleCreate := ⟨none, 100, 50, .cash, none, [⟨1, 1, 100⟩]⟩

/-- The work list `validateItems` produces for `reqWalkIn` in `stWalkIn`. -/
def infosWalkIn : List (ProductVariant × SaleItemCreate × Int) :=
  [(⟨1, "SKU1", 5⟩, ⟨1, 1, 100⟩, 100)]

/-- The committed state after `create_sale stScenario reqScenario 7 "RCP-E" true`. -/
def stScenarioFin : DBState :=
  ⟨[⟨1, 1500⟩], [⟨1, "A", 2⟩, ⟨2, "B", 4⟩], [rowScenario],
   [⟨1, 1, 3, 1000, 3000⟩, ⟨1, 2, 1, 500, 500⟩],
   [⟨1, .sale, 2000, "Sale RCP-E - Paid amount", some 1, some 1, some 7, 0⟩], 1⟩

instance (s : SaleRow) : Decidable (saleOk s) := by
  unfold saleOk
  infer_instance

instance (st : DBState) : Decidable (statusInv st) := by
  unfold statusInv
  exact List.decidableBAll _ _

instance (st : DBState) : Decidable (paidLeInv st) := by
  unfold paidLeInv
  exact List.decidableBAll _ _


end EnricoCerinni

namespace EnricoCerinni

/-! ### Helper lemmas about the embedded operations -/

/-- Every keyword of the `create_sale` transaction call is a mapped column. -/
theorem txInvalidKwargs_createSale : txInvalidKwargs createSaleTxKwargs = [] := rfl

/-- Every keyword of the `pay_debt` transaction call is a mapped column. -/
theorem txInvalidKwargs_payDebt : txInvalidKwargs payDebtTxKwargs = [] := rfl

/-- The `cancel_sale` transaction call passes two keywords that are not
mapped columns of `Transaction`. -/
theorem txInvalidKwargs_cancel :
    txInvalidKwargs cancelTxKwargs = ["type", "reference_number"] := rfl

/-- Every keyword of the `process_debt_payment` transaction call is a mapped
column. -/
theorem txInvalidKwargs_processDebt : txInvalidKwargs processDebtTxKwargs = [] := rfl

theorem addTransaction_createSale (st : DBState) (ty : TransactionType)
    (amount : Int) (descr : String) (saleId clientId userId : Option Nat) :
    addTransaction st createSaleTxKwargs ty amount descr saleId clientId userId
      = .ok (appendTransaction st ty amount descr saleId clientId userId) := rfl

theorem addTransaction_payDebt (st : DBState) (ty : TransactionType)
    (amount : Int) (descr : String) (saleId clientId userId : Option Nat) :
    addTransaction st payDebtTxKwargs ty amount descr saleId clientId userId
      = .ok (appendTransaction st ty amount descr saleId clientId userId) := rfl

theorem addTransaction_cancel (st : DBState) (ty : TransactionType)
    (amount : Int) (descr : String) (saleId clientId userId : Option Nat) :
    addTransaction st cancelTxKwargs ty amount descr saleId clientId userId
      = .error (.constructorTypeError ["type", "reference_number"]) := rfl

theorem addTransaction_processDebt (st : DBState) (ty : TransactionType)
    (amount : Int) (descr : String) (saleId clientId userId : Option Nat) :
    addTransaction st processDebtTxKwargs ty amount descr saleId clientId userId
      = .ok (appendTransaction st ty amount descr saleId clientId userId) := rfl

/-- `cancel_sale` never commits: construction of its refund `Transaction`
raises before any `db.commit()`, so the committed state is unchanged on
every input. -/
theorem cancel_sale_snd (st : DBState) (saleId : Nat) :
    (cancel_sale st saleId).2 = st := by
  unfold cancel_sale
  cases hs : get_sale st saleId with
  | none => rfl
  | some sale =>
    by_cases hc : sale.status = SaleStatus.cancelled
    · simp [hc]
    · simp [hc, addTransaction_cancel]

theorem applyItems_sales :
    ∀ (infos : List (ProductVariant × SaleItemCreate × Int)) (st : DBState) (saleId : Nat),
    (applyItems st saleId infos).sales = st.sales
  | [], _, _ => rfl
  | (pv, item, t) :: rest, st, saleId => by
    simp only [applyItems]
    rw [applyItems_sales rest]
    rfl

theorem applyItems_clients :
    ∀ (infos : List (ProductVariant × SaleItemCreate × Int)) (st : DBState) (saleId : Nat),
    (applyItems st saleId infos).clients = st.clients
  | [], _, _ => rfl
  | (pv, item, t) :: rest, st, saleId => by
    simp only [applyItems]
    rw [applyItems_clients rest]
    rfl

end EnricoCerinni


namespace EnricoCerinni

theorem updateClientDebt_sales (st : DBState) (cid : Nat) (delta : Int) :
    (updateClientDebt st cid delta).sales = st.sales := rfl

theorem updateSaleRow_clients (st : DBState) (s : SaleRow) :
    (updateSaleRow st s).clients = st.clients := rfl

theorem appendTransaction_sales (st : DBState) (ty : TransactionType)
    (amount : Int) (descr : String) (saleId clientId userId : Option Nat) :
    (appendTransaction st ty amount descr saleId clientId userId).sales = st.sales := rfl

theorem appendTransaction_clients (st : DBState) (ty : TransactionType)
    (amount : Int) (descr : String) (saleId clientId userId : Option Nat) :
    (appendTransaction st ty amount descr saleId clientId userId).clients = st.clients := rfl

/-- A successful `create_sale` adds exactly one sale row; every row of the
committed state is either an old row or carries the derived status and a
paid amount bounded by the total. -/
theorem create_sale_sales_mem (st : DBState) (d : SaleCreate) (userId : Nat)
    (receipt : String) (commitOk : Bool) (s : SaleRow)
    (hs : s ∈ ((create_sale st d userId receipt commitOk).2).sales) :
    s ∈ st.sales ∨
      (s.paid_amount ≤ s.total_amount ∧
        s.status = saleStatusOf s.paid_amount s.total_amount) := by
  simp only [create_sale] at hs
  split at hs
  · exact .inl hs
  · split at hs
    · exact .inl hs
    · rename_i total_amount sale_items hval
      split at hs
      · exact .inl hs
      · rename_i hnotgt
        split at hs
        · exact .inl hs
        · have hst1 : (if d.paid_amount < total_amount then
              updateClientDebt st (d.client_id.getD 0) (total_amount - d.paid_amount)
            else st).sales = st.sales := by
            split <;> rfl
          split at hs
          · -- transaction construction failed: committed state is st1
            dsimp only at hs
            rw [hst1] at hs
            exact .inl hs
          · rename_i st4 heq
            split at hs
            · -- final commit succeeded: committed state is st4
              dsimp only at hs
              split at heq
              · rw [addTransaction_createSale] at heq
                injection heq with heq4
                subst heq4
                rw [appendTransaction_sales, applyItems_sales] at hs
                dsimp only at hs
                rw [hst1] at hs
                simp only [List.mem_append, List.mem_singleton] at hs
                rcases hs with hs | hs
                · exact .inl hs
                · subst hs
                  exact .inr ⟨le_of_not_lt hnotgt, rfl⟩
              · injection heq with heq4
                subst heq4
                rw [applyItems_sales] at hs
                dsimp only at hs
                rw [hst1] at hs
                simp only [List.mem_append, List.mem_singleton] at hs
                rcases hs with hs | hs
                · exact .inl hs
                · subst hs
                  exact .inr ⟨le_of_not_lt hnotgt, rfl⟩
            · -- final commit failed: committed state is st1
              dsimp only at hs
              rw [hst1] at hs
              exact .inl hs

end EnricoCerinni

namespace EnricoCerinni

/-- Every sale row of the state committed by `pay_debt` is an old row or the
updated row, whose paid amount stays bounded by the total and whose status is
`completed` exactly when the new paid amount equals the total. -/
theorem pay_debt_sales_mem (st : DBState) (saleId : Nat) (p : Int) (userId : Nat)
    (s : SaleRow) (hs : s ∈ ((pay_debt st saleId p userId).2).sales) :
    s ∈ st.sales ∨
      (s.paid_amount ≤ s.total_amount ∧
        (s.status = .completed ↔ s.paid_amount = s.total_amount)) := by
  simp only [pay_debt] at hs
  split at hs
  · exact .inl hs
  · rename_i sale hfind
    split at hs
    · exact .inl hs
    · split at hs
      · exact .inl hs
      · split at hs
        · exact .inl hs
        · rename_i hle
          rw [addTransaction_payDebt] at hs
          dsimp only at hs
          rw [appendTransaction_sales] at hs
          simp only [updateSaleRow, List.mem_map] at hs
          obtain ⟨x, hx, hxe⟩ := hs
          by_cases hxid : (x.id == (paidSale sale p).id) = true
          · rw [if_pos hxid] at hxe
            subst hxe
            refine .inr ⟨?_, ?_⟩
            · dsimp [paidSale]
              omega
            · dsimp [paidSale]
              split
              · rename_i hc
                simp [hc]
              · rename_i hc
                simp [hc]
          · rw [if_neg hxid] at hxe
            subst hxe
            exact .inl hx

theorem pay_debt_clients (st : DBState) (saleId : Nat) (p : Int) (userId : Nat) :
    ((pay_debt st saleId p userId).2).clients = st.clients := by
  simp only [pay_debt]
  split
  · rfl
  · split
    · rfl
    · split
      · rfl
      · split
        · rfl
        · rw [addTransaction_payDebt]
          rfl

end EnricoCerinni

namespace EnricoCerinni

/-- Updating the fetched row (same id) makes a later lookup by that id return
the updated row. -/
theorem find?_update_sale (l : List SaleRow) (sid : Nat) (sale s' : SaleRow)
    (h : l.find? (fun s => s.id == sid) = some sale) (hid : s'.id = sale.id) :
    (l.map fun x => if x.id == s'.id then s' else x).find? (fun s => s.id == sid)
      = some s' := by
  induction l with
  | nil => simp at h
  | cons x xs ih =>
    simp only [List.map_cons]
    by_cases hx : (x.id == sid) = true
    · have hfind : List.find? (fun s => s.id == sid) (x :: xs) = some x := by
        simp [List.find?, hx]
      rw [hfind] at h
      injection h with h
      subst h
      have hxx : (x.id == s'.id) = true := by simp [hid]
      rw [if_pos hxx]
      have hs2 : (s'.id == sid) = true := by
        simp only [beq_iff_eq] at hx ⊢
        rw [hid, hx]
      simp [List.find?, hs2]
    · have hxf : (x.id == sid) = false := by
        rw [Bool.not_eq_true] at hx
        exact hx
      have hfind : List.find? (fun s => s.id == sid) (x :: xs)
          = List.find? (fun s => s.id == sid) xs := by
        simp [List.find?, hxf]
      rw [hfind] at h
      have hne : ¬ ((x.id == s'.id) = true) := by
        simp only [beq_iff_eq]
        intro heq
        apply hx
        have hsale := List.find?_some h
        simp only [beq_iff_eq] at hsale ⊢
        rw [heq, hid, hsale]
      rw [if_neg hne]
      have hgoal : List.find? (fun s => s.id == sid)
          (x :: List.map (fun x => if x.id == s'.id then s' else x) xs)
          = List.find? (fun s => s.id == sid)
              (List.map (fun x => if x.id == s'.id then s' else x) xs) := by
        simp [List.find?, hxf]
      rw [hgoal]
      exact ih h

theorem get_sale_appendTransaction (st : DBState) (ty : TransactionType)
    (amount : Int) (descr : String) (saleId clientId userId : Option Nat) (sid : Nat) :
    get_sale (appendTransaction st ty amount descr saleId clientId userId) sid
      = get_sale st sid := rfl

/-- A row whose status is the derived `saleStatusOf` of its own amounts
satisfies the (amended) status/payment relation. -/
theorem saleOk_of_statusOf (s : SaleRow)
    (h : s.status = saleStatusOf s.paid_amount s.total_amount) : saleOk s := by
  intro _
  unfold saleStatusOf at h
  constructor
  · intro hc
    rw [hc] at h
    by_cases h0 : s.paid_amount = 0
    · rw [if_pos h0] at h
      cases h
    · rw [if_neg h0] at h
      by_cases he : s.paid_amount = s.total_amount
      · exact he
      · rw [if_neg he] at h
        cases h
  · intro hne heq
    rw [h]
    by_cases h0 : s.paid_amount = 0
    · exact absurd (heq.symm.trans h0) hne
    · rw [if_neg h0, if_pos heq]

theorem saleOk_of_iff (s : SaleRow)
    (h : s.status = .completed ↔ s.paid_amount = s.total_amount) : saleOk s :=
  fun _ => ⟨h.mp, fun _ => h.mpr⟩

theorem statusInv_applyOp (st : DBState) (op : Op) (h : statusInv st) :
    statusInv (applyOp st op) := by
  cases op with
  | create d userId receipt commitOk =>
    intro s hs
    rcases create_sale_sales_mem st d userId receipt commitOk s hs with hm | ⟨_, hst⟩
    · exact h s hm
    · exact saleOk_of_statusOf s hst
  | pay saleId p userId =>
    intro s hs
    rcases pay_debt_sales_mem st saleId p userId s hs with hm | ⟨_, hiff⟩
    · exact h s hm
    · exact saleOk_of_iff s hiff
  | cancel saleId =>
    intro s hs
    rw [show applyOp st (.cancel saleId) = (cancel_sale st saleId).2 from rfl,
        cancel_sale_snd] at hs
    exact h s hs

theorem paidLeInv_applyOp (st : DBState) (op : Op) (h : paidLeInv st) :
    paidLeInv (applyOp st op) := by
  cases op with
  | create d userId receipt commitOk =>
    intro s hs
    rcases create_sale_sales_mem st d userId receipt commitOk s hs with hm | ⟨hle, _⟩
    · exact h s hm
    · exact hle
  | pay saleId p userId =>
    intro s hs
    rcases pay_debt_sales_mem st saleId p userId s hs with hm | ⟨hle, _⟩
    · exact h s hm
    · exact hle
  | cancel saleId =>
    intro s hs
    rw [show applyOp st (.cancel saleId) = (cancel_sale st saleId).2 from rfl,
        cancel_sale_snd] at hs
    exact h s hs

end EnricoCerinni

namespace EnricoCerinni

theorem replayBalances_length : ∀ (ts : List TransactionRow) (b : Int),
    (replayBalances b ts).length = ts.length
  | [], _ => rfl
  | t :: ts, b => by
    simp only [replayBalances, List.length_cons]
    rw [replayBalances_length ts]

/-- Each emitted entry carries the id, type, amount and timestamp of its
transaction, in order. -/
theorem replayBalances_map_key : ∀ (ts : List TransactionRow) (b : Int),
    (replayBalances b ts).map entryKey = ts.map txKey
  | [], _ => rfl
  | t :: ts, b => by
    simp only [replayBalances, List.map_cons]
    exact congrArg (List.cons (txKey t)) (replayBalances_map_key ts _)

/-- Closed form of the running balance: the `i`-th emitted balance is the
start balance plus the signed sum of the first `i + 1` transactions. -/
theorem replayBalances_balances : ∀ (ts : List TransactionRow) (b : Int),
    (replayBalances b ts).map (fun e => e.balance) =
      (List.range ts.length).map
        (fun k => b + ((ts.take (k + 1)).map signedAmount).sum)
  | [], _ => rfl
  | t :: ts, b => by
    have hstep : (if t.transaction_type = .sale then b + t.amount
        else if t.transaction_type = .debt_payment then b - t.amount else b)
        = b + signedAmount t := by
      unfold signedAmount
      split
      · rfl
      · split
        · exact Int.sub_eq_add_neg
        · exact (Int.add_zero b).symm
    simp only [replayBalances, List.map_cons]
    rw [hstep, replayBalances_balances ts (b + signedAmount t)]
    rw [List.length_cons, List.range_succ_eq_map]
    simp only [List.map_cons, List.map_map, List.take_succ_cons, List.take_zero,
      Function.comp]
    refine congrArg₂ List.cons ?_ ?_
    · simp
    · refine List.map_congr_left ?_
      intro k hk
      simp only [Function.comp_apply, Nat.succ_eq_add_one, List.take_succ_cons,
        List.sum_cons]
      omega

end EnricoCerinni

namespace EnricoCerinni

/-! ### Claim theorems -/

/-- C1: `create_sale` is not atomic.  For the fully-on-credit sale
`reqAtomic` the client-debt increment is committed on its own
(`sale_service.py` line 80) before the Sale is persisted: when the final
commit (line 124) fails, the call reports a persistence error, yet the
committed state shows client 1's `debt_amount` raised from 0 to 100 with no
Sale row, no SaleItem rows, no transaction and unchanged stock — partial
state is observable.  The insufficient-stock path (stock 5, requested 9), by
contrast, fails before the first commit and leaves the state untouched. -/
theorem create_sale_commits_debt_before_sale :
    create_sale stAtomic reqAtomic 1 "RCP-A" false =
      (.error .persistenceError,
       ⟨[⟨1, 100⟩], [⟨1, "SKU1", 5⟩], [], [], [], 0⟩) ∧
    create_sale stAtomic reqAtomicOver 1 "RCP-A" true =
      (.error (.insufficientStock "SKU1"), stAtomic) := ⟨rfl, rfl⟩

/-- C2: a single `create_sale` whose items list names the same variant twice
drives its `stock_quantity` to −1: each line is checked against the
still-undecremented stock (`sale_service.py` lines 50-54) and the decrements
are applied only afterwards (line 110), so with stock 1 and two lines of
qty 1 the sale succeeds and the committed stock is negative. -/
theorem create_sale_duplicate_variant_negative_stock :
    (create_sale stDup reqDup 1 "RCP-B" true).1 =
      .ok ⟨1, "RCP-B", none, 200, 200, .cash, .completed, none, 1⟩ ∧
    (create_sale stDup reqDup 1 "RCP-B" true).2.variants = [⟨1, "SKU1", -1⟩] ∧
    (-1 : Int) < 0 := ⟨rfl, rfl, by decide⟩

/-- C4: `cancel_sale` never succeeds.  On the existing, not-yet-cancelled
completed sale of `stCancel` (one item, qty 4) it raises the `TypeError` of
`Transaction(type=..., reference_number=...)` — neither keyword is a mapped
column of the model — before reaching `db.commit()`, so no status change,
stock restore or refund transaction is ever committed. -/
theorem cancel_sale_always_raises :
    cancel_sale stCancel 1 =
      (.error (.constructorTypeError ["type", "reference_number"]), stCancel) := rfl

/-- C5 counterexample: `create_sale` on `reqZeroTotal` (one item priced 0,
nothing paid) succeeds with `paid_amount = total_amount = 0` yet persists
status `debt`, not `completed`: the claim's clause "`paid_amount ==
total_amount` yields `completed`" fails because the `paid_amount == 0` case
wins. -/
theorem create_sale_zero_total_not_completed :
    (create_sale stZeroTotal reqZeroTotal 1 "RCP-D" true).1 = .ok rowZeroTotal ∧
    rowZeroTotal.paid_amount = rowZeroTotal.total_amount ∧
    rowZeroTotal.status = .debt ∧
    SaleStatus.debt ≠ SaleStatus.completed := ⟨rfl, rfl, rfl, by decide⟩

/-- C5 (amended): for every successful `create_sale`, the persisted status is
the pure function of `(paid_amount, total_amount)` given by: `debt` when
`paid_amount = 0` (this case wins even when `paid_amount = total_amount = 0`),
`completed` when `paid_amount` is nonzero and equals the total, and
`partially_paid` otherwise; e.g. two items (qty 3 @ 1000, qty 1 @ 500) with
`paid_amount` 2000 give `total_amount` 3500 and status `partially_paid`. -/
theorem create_sale_status_cases (st : DBState) (d : SaleCreate) (userId : Nat)
    (receipt : String) (commitOk : Bool) (sale : SaleRow) (st2 : DBState)
    (h : create_sale st d userId receipt commitOk = (.ok sale, st2)) :
    sale.paid_amount = d.paid_amount ∧
    sale.status =
      (if sale.paid_amount = 0 then SaleStatus.debt
       else if sale.paid_amount = sale.total_amount then SaleStatus.completed
       else SaleStatus.partially_paid) := by
  simp only [create_sale] at h
  split at h
  · cases h
  · split at h
    · cases h
    · split at h
      · cases h
      · split at h
        · cases h
        · split at h
          · rw [Prod.mk.injEq] at h
            cases h.1
          · split at h
            · rw [Prod.mk.injEq] at h
              obtain ⟨h1, h2⟩ := h
              injection h1 with h1
              subst h1
              exact ⟨rfl, rfl⟩
            · rw [Prod.mk.injEq] at h
              cases h.1

/-- C5 witness: the spec scenario instantiated through
`create_sale_status_cases`. -/
theorem create_sale_status_cases_witness :
    rowScenario.paid_amount = reqScenario.paid_amount ∧
    rowScenario.status =
      (if rowScenario.paid_amount = 0 then SaleStatus.debt
       else if rowScenario.paid_amount = rowScenario.total_amount then
         SaleStatus.completed
       else SaleStatus.partially_paid) :=
  create_sale_status_cases stScenario reqScenario 7 "RCP-E" true rowScenario
    stScenarioFin rfl

end EnricoCerinni

namespace EnricoCerinni

/-- C6 counterexample: after the successful `create_sale` of `reqZeroTotalB`
(two free items, nothing paid) the committed store holds exactly one sale,
which is non-cancelled and has `paid_amount = total_amount` (both 0) but
status `debt`, so the invariant `status == completed ⟺ paid_amount ==
total_amount` fails already after one `create_sale`. -/
theorem status_iff_violated_at_zero_total :
    (create_sale stZeroTotalB reqZeroTotalB 1 "RCP-F" true).2.sales =
      [rowZeroTotalB] ∧
    rowZeroTotalB.status ≠ SaleStatus.cancelled ∧
    rowZeroTotalB.paid_amount = rowZeroTotalB.total_amount ∧
    rowZeroTotalB.status ≠ SaleStatus.completed := ⟨rfl, by decide, rfl, by decide⟩

/-- C6 (amended): over every sequence of `create_sale`, `pay_debt` and
`cancel_sale` operations, every non-cancelled sale satisfies: `status =
completed` implies `paid_amount = total_amount`; and the converse holds
whenever `total_amount ≠ 0` — the only violation is a sale created with
`paid_amount = total_amount = 0`, which carries status `debt`. -/
theorem status_invariant_amended (st0 : DBState) (ops : List Op)
    (h : statusInv st0) : statusInv (applyOps st0 ops) := by
  induction ops generalizing st0 with
  | nil => exact h
  | cons op rest ih => exact ih (applyOp st0 op) (statusInv_applyOp st0 op h)

/-- C6 witness: creating a half-paid sale and then paying it off keeps the
status invariant. -/
theorem status_invariant_amended_witness :
    statusInv (applyOps stOpsW opsStatusW) :=
  status_invariant_amended stOpsW opsStatusW (by decide)

/-- C8 counterexample: `pay_debt` accepts a negative `payment_amount` (the
schema puts no lower bound on it and the guard only rejects amounts above the
remaining debt), so paying −100 on a sale with `paid_amount = 50` succeeds
and leaves `paid_amount = −50`: below 0 and strictly decreased. -/
theorem pay_debt_negative_payment_decreases_paid :
    (pay_debt stNegPay 1 (-100) 1).1 = .ok (paidSale rowNegPay (-100)) ∧
    (paidSale rowNegPay (-100)).paid_amount = -50 ∧
    ((-50 : Int) < 0) ∧ ((-50 : Int) < rowNegPay.paid_amount) :=
  ⟨rfl, rfl, by decide, by decide⟩

/-- C8 (amended): over every sequence of `create_sale`, `pay_debt` and
`cancel_sale` operations, every sale satisfies `paid_amount ≤ total_amount`;
the claimed lower bound `0 ≤ paid_amount` and upward-only mutation are not
enforced by the code. -/
theorem paid_le_total_invariant (st0 : DBState) (ops : List Op)
    (h : paidLeInv st0) : paidLeInv (applyOps st0 ops) := by
  induction ops generalizing st0 with
  | nil => exact h
  | cons op rest ih => exact ih (applyOp st0 op) (paidLeInv_applyOp st0 op h)

/-- C8 witness: a create, a partial payment and a cancellation attempt keep
`paid_amount ≤ total_amount`. -/
theorem paid_le_total_invariant_witness :
    paidLeInv (applyOps stOpsW opsPaidLeW) :=
  paid_le_total_invariant stOpsW opsPaidLeW (by decide)

end EnricoCerinni

namespace EnricoCerinni

/-- C7: the full `pay_debt` contract.  A missing sale fails with not-found;
a cancelled sale and an already-completed sale fail with the invalid-state
errors; a payment above the remaining debt fails with an error carrying that
remaining debt; otherwise `paid_amount` grows by the payment, the status
becomes `completed` exactly when the new paid amount equals the total and
`partially_paid` otherwise, and a `debt_payment` transaction with
`amount = payment_amount` linked to the sale and its client is appended; and
a second `pay_debt` on a sale just brought to `completed` fails with the
already-fully-paid error. -/
theorem pay_debt_contract (st : DBState) (saleId : Nat) (p : Int) (userId : Nat) :
    (get_sale st saleId = none →
      pay_debt st saleId p userId = (.error .saleNotFound, st)) ∧
    (∀ sale, get_sale st saleId = some sale → sale.status = .cancelled →
      pay_debt st saleId p userId = (.error .cannotPayCancelled, st)) ∧
    (∀ sale, get_sale st saleId = some sale → sale.status ≠ .cancelled →
      sale.status = .completed →
      pay_debt st saleId p userId = (.error .alreadyFullyPaid, st)) ∧
    (∀ sale, get_sale st saleId = some sale → sale.status ≠ .cancelled →
      sale.status ≠ .completed → sale.total_amount - sale.paid_amount < p →
      pay_debt st saleId p userId =
        (.error (.exceedsDebt (sale.total_amount - sale.paid_amount)), st)) ∧
    (∀ sale, get_sale st saleId = some sale → sale.status ≠ .cancelled →
      sale.status ≠ .completed → p ≤ sale.total_amount - sale.paid_amount →
      pay_debt st saleId p userId =
        (.ok (paidSale sale p),
         appendTransaction (updateSaleRow st (paidSale sale p)) .debt_payment p
           ("Debt payment for sale " ++ sale.receipt_number) (some sale.id)
           sale.client_id (some userId))) ∧
    (∀ sale2 st2, pay_debt st saleId p userId = (.ok sale2, st2) →
      sale2.status = .completed →
      ∀ q userId2, pay_debt st2 saleId q userId2 = (.error .alreadyFullyPaid, st2)) := by
  refine ⟨?_, ?_, ?_, ?_, ?_, ?_⟩
  · intro hnone
    simp [pay_debt, hnone]
  · intro sale hf hc
    simp [pay_debt, hf, hc]
  · intro sale hf hnc hcomp
    simp only [pay_debt, hf]
    rw [if_neg hnc, if_pos hcomp]
  · intro sale hf hnc hcomp hgt
    simp only [pay_debt, hf]
    rw [if_neg hnc, if_neg hcomp, if_pos hgt]
  · intro sale hf hnc hcomp hle
    simp only [pay_debt, hf]
    rw [if_neg hnc, if_neg hcomp, if_neg (not_lt.mpr hle), addTransaction_payDebt]
  · intro sale2 st2 h hcomp2 q userId2
    simp only [pay_debt] at h
    split at h
    · simp at h
    · rename_i sale hf
      split at h
      · simp at h
      · split at h
        · simp at h
        · split at h
          · simp at h
          · rw [addTransaction_payDebt] at h
            rw [Prod.mk.injEq] at h
            obtain ⟨h1, h2⟩ := h
            injection h1 with h1
            subst h1
            subst h2
            have hfind2 : get_sale
                (appendTransaction (updateSaleRow st (paidSale sale p)) .debt_payment p
                  ("Debt payment for sale " ++ sale.receipt_number) (some sale.id)
                  sale.client_id (some userId)) saleId = some (paidSale sale p) := by
              rw [get_sale_appendTransaction]
              exact find?_update_sale st.sales saleId sale (paidSale sale p) hf rfl
            simp only [pay_debt, hfind2]
            rw [if_neg (by rw [hcomp2]; decide), if_pos hcomp2]

end EnricoCerinni

namespace EnricoCerinni

/-- C7 witness: paying 1500 on the 3500/2000 sale yields `paid_amount` 3500
and status `completed`; a second `pay_debt` on the same sale fails with the
already-fully-paid error. -/
theorem pay_debt_contract_witness :
    pay_debt stPay 1 1500 7 = (.ok (paidSale rowPayBefore 1500), stPayFin) ∧
    pay_debt stPayFin 1 100 9 = (.error .alreadyFullyPaid, stPayFin) := by
  have h := pay_debt_contract stPay 1 1500 7
  have h1 := h.2.2.2.2.1 rowPayBefore rfl (by decide) (by decide) (by decide)
  exact ⟨h1, h.2.2.2.2.2 (paidSale rowPayBefore 1500) stPayFin h1 (by decide) 100 9⟩

/-- C9: neither `pay_debt` nor `cancel_sale` touches any client's
`debt_amount`: the committed client table is identical before and after
every call.  The aggregate is decremented only by the client-level
`process_debt_payment` endpoint, whose appended `debt_payment` transaction
carries `sale_id = none` — it is not linked to any Sale. -/
theorem client_debt_frame (st : DBState) (saleId saleId2 clientId : Nat)
    (p p2 : Int) (userId userId2 : Nat) :
    ((pay_debt st saleId p userId).2).clients = st.clients ∧
    ((cancel_sale st saleId2).2).clients = st.clients ∧
    (∀ client, findClient st clientId = some client →
      ¬ client.debt_amount < p2 →
      process_debt_payment st clientId p2 userId2 =
        (.ok (client.debt_amount - p2),
         appendTransaction (updateClientDebt st clientId (-p2)) .debt_payment p2
           ("Debt payment of " ++ toString p2) none (some clientId)
           (some userId2))) := by
  refine ⟨pay_debt_clients st saleId p userId, ?_, ?_⟩
  · rw [cancel_sale_snd]
  · intro client hf hle
    simp only [process_debt_payment, hf]
    rw [if_neg hle, addTransaction_processDebt]

/-- C9 witness: on the client with debt 80, `pay_debt` and `cancel_sale`
leave the client table unchanged, while `process_debt_payment` of 30 commits
debt 50 and appends a transaction with no sale link. -/
theorem client_debt_frame_witness :
    ((pay_debt stDebtPay 1 10 2).2).clients = stDebtPay.clients ∧
    ((cancel_sale stDebtPay 1).2).clients = stDebtPay.clients ∧
    process_debt_payment stDebtPay 3 30 2 =
      (.ok 50,
       appendTransaction (updateClientDebt stDebtPay 3 (-30)) .debt_payment 30
         ("Debt payment of " ++ toString (30 : Int)) none (some 3) (some 2)) := by
  have h := client_debt_frame stDebtPay 1 1 3 10 30 2 2
  exact ⟨h.1, h.2.1, h.2.2 ⟨3, 80⟩ rfl (by decide)⟩

end EnricoCerinni

namespace EnricoCerinni

/-- C10: a walk-in `create_sale` (no `client_id`) that passes validation with
`paid_amount < total_amount` reaches the debt-increment step with the local
`client` never bound and raises `UnboundLocalError` — none of the specified
errors, and no success; consequently a walk-in sale can only succeed when
`paid_amount` equals the computed `total_amount`. -/
theorem walk_in_unbound_client (st : DBState) (d : SaleCreate) (userId : Nat)
    (receipt : String) (commitOk : Bool) (hwalk : d.client_id = none) :
    (∀ total infos, validateItems st d.items = .ok (total, infos) →
      d.paid_amount < total →
      create_sale st d userId receipt commitOk = (.error .unboundLocalClient, st)) ∧
    (∀ sale st2, create_sale st d userId receipt commitOk = (.ok sale, st2) →
      sale.paid_amount = sale.total_amount) := by
  constructor
  · intro total infos hval hlt
    simp only [create_sale, hwalk, hval, optTruthy]
    rw [if_neg (by simp)]
    rw [if_neg (not_lt.mpr (le_of_lt hlt))]
    rw [if_pos ⟨hlt, by simp⟩]
  · intro sale st2 h
    simp only [create_sale, hwalk, optTruthy] at h
    rw [if_neg (by simp)] at h
    split at h
    · simp at h
    · rename_i total infos hval
      split at h
      · simp at h
      · rename_i hnotgt
        split at h
        · simp at h
        · rename_i hnotlt
          have hpt : d.paid_amount = total := by
            rw [not_and_or] at hnotlt
            rcases hnotlt with hge | habs
            · omega
            · exact absurd (by simp) habs
          split at h
          · simp at h
          · split at h
            · rw [Prod.mk.injEq] at h
              obtain ⟨h1, _⟩ := h
              injection h1 with h1
              subst h1
              exact hpt
            · simp at h

end EnricoCerinni

namespace EnricoCerinni

/-- C10 witness: the walk-in request paying 50 of 100 fails with the
unbound-local error and changes nothing. -/
theorem walk_in_unbound_client_witness :
    create_sale stWalkIn reqWalkIn 1 "RCP-H" true =
      (.error .unboundLocalClient, stWalkIn) :=
  (walk_in_unbound_client stWalkIn reqWalkIn 1 "RCP-H" true rfl).1 100 infosWalkIn
    rfl (by decide)

/-- C3 counterexample: for the client of `stHistory` (a sale at time 1, a
debt payment at time 2) `get_client_debt_history` emits the entries ordered
by creation time descending — created-at sequence `[2, 1]`, which is not
ascending — and replays the balance in that reverse-chronological order
(−30 then 70, where the claimed ascending replay would give 100 then 70). -/
theorem debt_history_not_ascending :
    get_client_debt_history stHistory 1 = .ok histDescending ∧
    histDescending.map (fun e => e.created_at) = [2, 1] ∧
    ¬ (2 : Nat) ≤ 1 ∧
    histDescending.map (fun e => e.balance) = [-30, 70] := ⟨rfl, rfl, by decide, rfl⟩

/-- C3 (amended): for every client, `get_client_debt_history` returns the
client's transactions ordered by creation time descending, each emitted
entry carrying that transaction's `{id, type, amount, created_at}` together
with a running `balance` that starts at 0 and, along the
reverse-chronological order, increases by `amount` on `sale`-type
transactions and decreases by `amount` on `debt_payment`-type transactions:
the i-th balance is the signed sum of the first `i + 1` listed
transactions. -/
theorem debt_history_descending_replay (st : DBState) (clientId : Nat)
    (hist : List DebtHistoryEntry)
    (h : get_client_debt_history st clientId = .ok hist) :
    List.Pairwise (fun a b => b.created_at ≤ a.created_at) hist ∧
    hist.map entryKey = (clientTransactionsDesc st clientId).map txKey ∧
    hist.map (fun e => e.balance) =
      (List.range hist.length).map
        (fun k => (((clientTransactionsDesc st clientId).take (k + 1)).map
          signedAmount).sum) := by
  unfold get_client_debt_history at h
  split at h
  · cases h
  · injection h with h
    subst h
    refine ⟨?_, replayBalances_map_key _ 0, ?_⟩
    · have hsorted : List.Pairwise createdDesc (clientTransactionsDesc st clientId) :=
        List.sorted_insertionSort createdDesc _
      have hkey := replayBalances_map_key (clientTransactionsDesc st clientId) 0
      have hcr : (replayBalances 0 (clientTransactionsDesc st clientId)).map
            (fun e => e.created_at)
          = (clientTransactionsDesc st clientId).map (fun t => t.created_at) := by
        have h2 := congrArg
          (List.map (fun q : Nat × TransactionType × Int × Nat => q.2.2.2)) hkey
        simpa [List.map_map, Function.comp, entryKey, txKey] using h2
      have hp : List.Pairwise (fun a b : Nat => b ≤ a)
          ((replayBalances 0 (clientTransactionsDesc st clientId)).map
            (fun e => e.created_at)) := by
        rw [hcr]
        exact List.pairwise_map.mpr hsorted
      exact List.pairwise_map.mp hp
    · rw [replayBalances_length]
      have hb := replayBalances_balances (clientTransactionsDesc st clientId) 0
      simpa using hb

/-- C3 witness: the amended statement instantiated on `stHistoryW`. -/
theorem debt_history_descending_replay_witness :
    List.Pairwise (fun a b => b.created_at ≤ a.created_at) histDescendingW ∧
    histDescendingW.map entryKey = (clientTransactionsDesc stHistoryW 5).map txKey ∧
    histDescendingW.map (fun e => e.balance) =
      (List.range histDescendingW.length).map
        (fun k => (((clientTransactionsDesc stHistoryW 5).take (k + 1)).map
          signedAmount).sum) :=
  debt_history_descending_replay stHistoryW 5 histDescendingW rfl

end EnricoCerinni
